import Mathlib

/-!
# goRuckig: the cgo wrapper around the Ruckig trajectory generator

A shallow embedding of `ruckig.go`.  Every exported Go function is a Lean
function with the same name.  The native library is not part of the Go file:
each wrapper therefore takes the library as an argument (`Native`, the values
the C functions return) and reports the C calls it makes, in order, as a list
of `NativeCall` records.

Conventions of the embedding

* `unsafe.Pointer` / `void*` is an address, a natural number; `nil` is `0`.
* `float64` values are only copied by the wrappers, never computed with; they
  are carried as rationals.
* Go `int` is the 64-bit integer of the 64-bit targets, C `int` is 32 bits
  wide; the conversion `C.int(x)` keeps the low 32 bits (`cInt`).  The
  opposite conversion `int(c)` of a C `int` is value preserving.
* A Go run-time panic (index out of range) is the result `none`.
-/

namespace goRuckig

/-- An `unsafe.Pointer` (a C `void*`): an address. -/
abbrev Ptr := Nat

/-- The nil pointer. -/
def nilPtr : Ptr := 0

/-- Values of Go type `float64`; the wrappers only move them around. -/
abbrev float64 := Rat

/-- The Go conversion `C.int(x)` of a Go `int`: truncation to 32 bits, read as
a signed number. -/
def cInt (x : Int) : Int := (x + 2147483648) % 4294967296 - 2147483648

/-- One call into the native library, with the arguments that were passed.
A `double*` argument is recorded as the Go slice whose first element it
points to. -/
inductive NativeCall where
  | create_ruckig_instance (delta_time : float64) (dof : Int)
  | destroy_ruckig_instance (inst : Ptr)
  | ruckig_reset (inst : Ptr)
  | ruckig_validate_input (input : Ptr) (check_current_state check_target_state : Bool)
  | create_input_parameter (dof : Int)
  | destroy_input_parameter (input : Ptr)
  | create_output_parameter (dof : Int)
  | destroy_output_parameter (output : Ptr)
  | ruckig_calculate (inst input output : Ptr)
  | ruckig_update (inst input output : Ptr)
  | set_current_position (input : Ptr) (positions : List float64) (dof : Int)
  | set_target_position (input : Ptr) (positions : List float64) (dof : Int)
  | set_current_velocity (input : Ptr) (velocities : List float64) (dof : Int)
  | set_current_acceleration (input : Ptr) (accelerations : List float64) (dof : Int)
  | set_target_velocity (input : Ptr) (velocities : List float64) (dof : Int)
  | set_target_acceleration (input : Ptr) (accelerations : List float64) (dof : Int)
  | set_max_velocity (input : Ptr) (velocities : List float64) (dof : Int)
  | set_max_acceleration (input : Ptr) (accelerations : List float64) (dof : Int)
  | set_max_jerk (input : Ptr) (jerks : List float64) (dof : Int)
  | get_output_time (output : Ptr)
  | get_new_position (output : Ptr) (positions : List float64) (dof : Int)
  | pass_output_to_input (output input : Ptr)
  | get_trajectory_duration (output : Ptr)
  deriving DecidableEq, Repr

/-- What the native library answers: one field per C function of the cgo
preamble that returns a value (or, for `get_new_position`, stores values
through its `double*` argument). -/
structure Native where
  create_ruckig_instance : float64 → Int → Ptr
  create_input_parameter : Int → Ptr
  create_output_parameter : Int → Ptr
  ruckig_validate_input : Ptr → Bool → Bool → Bool
  ruckig_calculate : Ptr → Ptr → Ptr → Int
  ruckig_update : Ptr → Ptr → Ptr → Int
  get_output_time : Ptr → float64
  get_new_position : Ptr → Int → List float64
  get_trajectory_duration : Ptr → float64

/-- Go `type Ruckig struct { instance unsafe.Pointer; dof int }`. -/
structure Ruckig where
  instance_ : Ptr
  dof : Int
  deriving DecidableEq, Repr

/-- Go `type InputParameter struct { ptr unsafe.Pointer }`. -/
structure InputParameter where
  ptr : Ptr
  deriving DecidableEq, Repr

/-- Go `type OutputParameter struct { ptr unsafe.Pointer }`. -/
structure OutputParameter where
  ptr : Ptr
  deriving DecidableEq, Repr

/-- `NewRuckig`: the new object (`none` for the Go `nil` result) and the calls made. -/
def NewRuckig (N : Native) (deltaTime : float64) (dof : Int) :
    Option Ruckig × List NativeCall :=
  let inst := N.create_ruckig_instance deltaTime (cInt dof)
  (if inst = nilPtr then none else some { instance_ := inst, dof := dof },
   [NativeCall.create_ruckig_instance deltaTime (cInt dof)])

/-- `(*Ruckig).Destroy`: the receiver afterwards and the calls made. -/
def Ruckig.Destroy (r : Ruckig) : Ruckig × List NativeCall :=
  if r.instance_ ≠ nilPtr then
    ({ r with instance_ := nilPtr }, [NativeCall.destroy_ruckig_instance r.instance_])
  else (r, [])

/-- `(*Ruckig).Reset`: the receiver afterwards and the calls made. -/
def Ruckig.Reset (r : Ruckig) : Ruckig × List NativeCall :=
  if r.instance_ ≠ nilPtr then (r, [NativeCall.ruckig_reset r.instance_])
  else (r, [])

/-- `NewInputParameter`. -/
def NewInputParameter (N : Native) (dof : Int) : Option InputParameter × List NativeCall :=
  let ptr := N.create_input_parameter (cInt dof)
  (if ptr = nilPtr then none else some { ptr := ptr },
   [NativeCall.create_input_parameter (cInt dof)])

/-- `(*InputParameter).Destroy`. -/
def InputParameter.Destroy (inp : InputParameter) : InputParameter × List NativeCall :=
  if inp.ptr ≠ nilPtr then
    ({ inp with ptr := nilPtr }, [NativeCall.destroy_input_parameter inp.ptr])
  else (inp, [])

/-- `NewOutputParameter`. -/
def NewOutputParameter (N : Native) (dof : Int) : Option OutputParameter × List NativeCall :=
  let ptr := N.create_output_parameter (cInt dof)
  (if ptr = nilPtr then none else some { ptr := ptr },
   [NativeCall.create_output_parameter (cInt dof)])

/-- `(*OutputParameter).Destroy`. -/
def OutputParameter.Destroy (out : OutputParameter) : OutputParameter × List NativeCall :=
  if out.ptr ≠ nilPtr then
    ({ out with ptr := nilPtr }, [NativeCall.destroy_output_parameter out.ptr])
  else (out, [])

/-- `(*InputParameter).ValidateInput`. -/
def InputParameter.ValidateInput (N : Native) (inp : InputParameter)
    (checkCurrentState checkTargetState : Bool) : Bool × List NativeCall :=
  (N.ruckig_validate_input inp.ptr checkCurrentState checkTargetState,
   [NativeCall.ruckig_validate_input inp.ptr checkCurrentState checkTargetState])

/-- `(*Ruckig).Calculate`: the returned `int` and the calls made. -/
def Ruckig.Calculate (N : Native) (r : Ruckig) (input : InputParameter)
    (output : OutputParameter) : Int × List NativeCall :=
  if r.instance_ = nilPtr ∨ input.ptr = nilPtr ∨ output.ptr = nilPtr then (-1, [])
  else (N.ruckig_calculate r.instance_ input.ptr output.ptr,
        [NativeCall.ruckig_calculate r.instance_ input.ptr output.ptr])

/-- `(*Ruckig).Update`: the returned `int` and the calls made. -/
def Ruckig.Update (N : Native) (r : Ruckig) (input : InputParameter)
    (output : OutputParameter) : Int × List NativeCall :=
  if r.instance_ = nilPtr ∨ input.ptr = nilPtr ∨ output.ptr = nilPtr then (-1, [])
  else (N.ruckig_update r.instance_ input.ptr output.ptr,
        [NativeCall.ruckig_update r.instance_ input.ptr output.ptr])

/-- The Go expression `&s[0]`: indexing panics (`none`) when the slice is empty;
otherwise the pointer is recorded as the slice it points into. -/
def addrOfFirst (s : List float64) : Option (List float64) :=
  if 0 < s.length then some s else none

/-- `(*InputParameter).SetCurrentPosition`: `none` is a run-time panic, otherwise the calls made. -/
def InputParameter.SetCurrentPosition (inp : InputParameter) (positions : List float64) :
    Option (List NativeCall) :=
  (addrOfFirst positions).map fun p =>
    [NativeCall.set_current_position inp.ptr p (cInt positions.length)]

/-- `(*InputParameter).SetTargetPosition`: `none` is a run-time panic, otherwise the calls made. -/
def InputParameter.SetTargetPosition (inp : InputParameter) (positions : List float64) :
    Option (List NativeCall) :=
  (addrOfFirst positions).map fun p =>
    [NativeCall.set_target_position inp.ptr p (cInt positions.length)]

/-- `(*InputParameter).SetCurrentVelocity`: `none` is a run-time panic, otherwise the calls made. -/
def InputParameter.SetCurrentVelocity (inp : InputParameter) (velocities : List float64) :
    Option (List NativeCall) :=
  (addrOfFirst velocities).map fun p =>
    [NativeCall.set_current_velocity inp.ptr p (cInt velocities.length)]

/-- `(*InputParameter).SetCurrentAcceleration`: `none` is a run-time panic, otherwise the calls made. -/
def InputParameter.SetCurrentAcceleration (inp : InputParameter) (accelerations : List float64) :
    Option (List NativeCall) :=
  (addrOfFirst accelerations).map fun p =>
    [NativeCall.set_current_acceleration inp.ptr p (cInt accelerations.length)]

/-- `(*InputParameter).SetTargetVelocity`: `none` is a run-time panic, otherwise the calls made. -/
def InputParameter.SetTargetVelocity (inp : InputParameter) (velocities : List float64) :
    Option (List NativeCall) :=
  (addrOfFirst velocities).map fun p =>
    [NativeCall.set_target_velocity inp.ptr p (cInt velocities.length)]

/-- `(*InputParameter).SetTargetAcceleration`: `none` is a run-time panic, otherwise the calls made. -/
def InputParameter.SetTargetAcceleration (inp : InputParameter) (accelerations : List float64) :
    Option (List NativeCall) :=
  (addrOfFirst accelerations).map fun p =>
    [NativeCall.set_target_acceleration inp.ptr p (cInt accelerations.length)]

/-- `(*InputParameter).SetMaxVelocity`: `none` is a run-time panic, otherwise the calls made. -/
def InputParameter.SetMaxVelocity (inp : InputParameter) (velocities : List float64) :
    Option (List NativeCall) :=
  (addrOfFirst velocities).map fun p =>
    [NativeCall.set_max_velocity inp.ptr p (cInt velocities.length)]

/-- `(*InputParameter).SetMaxAcceleration`: `none` is a run-time panic, otherwise the calls made. -/
def InputParameter.SetMaxAcceleration (inp : InputParameter) (accelerations : List float64) :
    Option (List NativeCall) :=
  (addrOfFirst accelerations).map fun p =>
    [NativeCall.set_max_acceleration inp.ptr p (cInt accelerations.length)]

/-- `(*InputParameter).SetMaxJerk`: `none` is a run-time panic, otherwise the calls made. -/
def InputParameter.SetMaxJerk (inp : InputParameter) (jerks : List float64) :
    Option (List NativeCall) :=
  (addrOfFirst jerks).map fun p =>
    [NativeCall.set_max_jerk inp.ptr p (cInt jerks.length)]

/-- `(*OutputParameter).Time`. -/
def OutputParameter.Time (N : Native) (out : OutputParameter) : float64 × List NativeCall :=
  (N.get_output_time out.ptr, [NativeCall.get_output_time out.ptr])

/-- The Go slice `buf` after the native side has stored `vals` through the
pointer to its first element: the length of the slice does not change. -/
def storeThrough (buf vals : List float64) : List float64 :=
  vals.take buf.length ++ buf.drop vals.length

/-- `(*OutputParameter).NewPosition`: the returned slice and the calls made
(`none` is a run-time panic). -/
def OutputParameter.NewPosition (N : Native) (out : OutputParameter) :
    Option (List float64 × List NativeCall) :=
  let dof : Int := 3
  let positions : List float64 := List.replicate dof.toNat 0
  (addrOfFirst positions).map fun p =>
    (storeThrough positions (N.get_new_position out.ptr (cInt dof)),
     [NativeCall.get_new_position out.ptr p (cInt dof)])

/-- `(*OutputParameter).PassToInput`. -/
def OutputParameter.PassToInput (out : OutputParameter) (input : InputParameter) :
    List NativeCall :=
  [NativeCall.pass_output_to_input out.ptr input.ptr]

/-- `(*OutputParameter).TrajectoryDuration`. -/
def OutputParameter.TrajectoryDuration (N : Native) (out : OutputParameter) :
    float64 × List NativeCall :=
  (N.get_trajectory_duration out.ptr, [NativeCall.get_trajectory_duration out.ptr])

/-! ## A program using one engine, one input and one output object -/

/-- The three Go objects of a control loop and every native call made so far. -/
structure World where
  r : Ruckig
  input : InputParameter
  output : OutputParameter
  trace : List NativeCall
  deriving DecidableEq, Repr

/-- What a method call hands back to the Go caller. -/
inductive Ret where
  | unit
  | int (i : Int)
  | bool (b : Bool)
  | float (x : float64)
  | floats (xs : List float64)
  deriving DecidableEq, Repr

/-- The method calls a program can make on the three objects. -/
inductive Op where
  | RuckigDestroy
  | RuckigReset
  | InputDestroy
  | OutputDestroy
  | ValidateInput (checkCurrentState checkTargetState : Bool)
  | Calculate
  | Update
  | SetCurrentPosition (positions : List float64)
  | SetTargetPosition (positions : List float64)
  | SetCurrentVelocity (velocities : List float64)
  | SetCurrentAcceleration (accelerations : List float64)
  | SetTargetVelocity (velocities : List float64)
  | SetTargetAcceleration (accelerations : List float64)
  | SetMaxVelocity (velocities : List float64)
  | SetMaxAcceleration (accelerations : List float64)
  | SetMaxJerk (jerks : List float64)
  | Time
  | NewPosition
  | PassToInput
  | TrajectoryDuration
  deriving DecidableEq, Repr

/-- One method call.  The native library may answer differently as its own
state evolves: `N` gives its answers as a function of the calls made so far.
`none` is a run-time panic. -/
def step (N : List NativeCall → Native) (w : World) : Op → Option (World × Ret)
  | Op.RuckigDestroy =>
      let p := w.r.Destroy
      some ({ w with r := p.1, trace := w.trace ++ p.2 }, Ret.unit)
  | Op.RuckigReset =>
      let p := w.r.Reset
      some ({ w with r := p.1, trace := w.trace ++ p.2 }, Ret.unit)
  | Op.InputDestroy =>
      let p := w.input.Destroy
      some ({ w with input := p.1, trace := w.trace ++ p.2 }, Ret.unit)
  | Op.OutputDestroy =>
      let p := w.output.Destroy
      some ({ w with output := p.1, trace := w.trace ++ p.2 }, Ret.unit)
  | Op.ValidateInput a b =>
      let p := w.input.ValidateInput (N w.trace) a b
      some ({ w with trace := w.trace ++ p.2 }, Ret.bool p.1)
  | Op.Calculate =>
      let p := w.r.Calculate (N w.trace) w.input w.output
      some ({ w with trace := w.trace ++ p.2 }, Ret.int p.1)
  | Op.Update =>
      let p := w.r.Update (N w.trace) w.input w.output
      some ({ w with trace := w.trace ++ p.2 }, Ret.int p.1)
  | Op.SetCurrentPosition v =>
      (w.input.SetCurrentPosition v).map fun cs => ({ w with trace := w.trace ++ cs }, Ret.unit)
  | Op.SetTargetPosition v =>
      (w.input.SetTargetPosition v).map fun cs => ({ w with trace := w.trace ++ cs }, Ret.unit)
  | Op.SetCurrentVelocity v =>
      (w.input.SetCurrentVelocity v).map fun cs => ({ w with trace := w.trace ++ cs }, Ret.unit)
  | Op.SetCurrentAcceleration v =>
      (w.input.SetCurrentAcceleration v).map fun cs => ({ w with trace := w.trace ++ cs }, Ret.unit)
  | Op.SetTargetVelocity v =>
      (w.input.SetTargetVelocity v).map fun cs => ({ w with trace := w.trace ++ cs }, Ret.unit)
  | Op.SetTargetAcceleration v =>
      (w.input.SetTargetAcceleration v).map fun cs => ({ w with trace := w.trace ++ cs }, Ret.unit)
  | Op.SetMaxVelocity v =>
      (w.input.SetMaxVelocity v).map fun cs => ({ w with trace := w.trace ++ cs }, Ret.unit)
  | Op.SetMaxAcceleration v =>
      (w.input.SetMaxAcceleration v).map fun cs => ({ w with trace := w.trace ++ cs }, Ret.unit)
  | Op.SetMaxJerk v =>
      (w.input.SetMaxJerk v).map fun cs => ({ w with trace := w.trace ++ cs }, Ret.unit)
  | Op.Time =>
      let p := w.output.Time (N w.trace)
      some ({ w with trace := w.trace ++ p.2 }, Ret.float p.1)
  | Op.NewPosition =>
      (w.output.NewPosition (N w.trace)).map fun p =>
        ({ w with trace := w.trace ++ p.2 }, Ret.floats p.1)
  | Op.PassToInput =>
      some ({ w with trace := w.trace ++ w.output.PassToInput w.input }, Ret.unit)
  | Op.TrajectoryDuration =>
      let p := w.output.TrajectoryDuration (N w.trace)
      some ({ w with trace := w.trace ++ p.2 }, Ret.float p.1)

/-- A sequence of method calls, one after the other; a panic ends the program. -/
def run (N : List NativeCall → Native) : World → List Op → Option World
  | w, [] => some w
  | w, op :: ops =>
      match step N w op with
      | none => none
      | some (w1, _) => run N w1 ops

/-- A stand-in native library for instantiating theorems at concrete inputs:
it hands out fixed non-nil handles, reports code `0` and stores zeros. -/
def demoNative : Native where
  create_ruckig_instance := fun _ _ => 4096
  create_input_parameter := fun _ => 8192
  create_output_parameter := fun _ => 12288
  ruckig_validate_input := fun _ _ _ => true
  ruckig_calculate := fun _ _ _ => 0
  ruckig_update := fun _ _ _ => 0
  get_output_time := fun _ => 0
  get_new_position := fun _ dof => List.replicate dof.toNat 0
  get_trajectory_duration := fun _ => 0

/-- Modelled from the spec: the C function `create_ruckig_instance` is not part
of `ruckig.go`.  The interface table of the specification says of
`create(period, dof)` that it "fails if period ≤0 or dof <1"; a native library
meets this when it returns NULL for such arguments. -/
def createFailsAsSpecified (N : Native) : Prop :=
  ∀ (delta_time : float64) (dof : Int),
    (delta_time ≤ 0 ∨ dof < 1) → N.create_ruckig_instance delta_time dof = nilPtr

/-- Modelled from the spec: a native library whose `create_ruckig_instance`
fails in the cases named by the interface table ("fails if period ≤0 or dof
<1") and hands out the engine handle 4096 in every other case. -/
def specNative : Native :=
  { demoNative with
    create_ruckig_instance := fun delta_time dof =>
      if delta_time ≤ 0 ∨ dof < 1 then nilPtr else 4096 }

/-- Modelled from the spec: the result codes of `update` and `calculate`, which
are computed by the native library and not by `ruckig.go`: "a closed
enumeration: Working, Finished, Error". -/
inductive Result where
  | Working
  | Finished
  | Error
  deriving DecidableEq, Repr

/-- Modelled from the spec: the integer of each result code.  `Working` is `0`
and `Error` is `-1`; the integer of `Finished` is given by the library. -/
def Result.code (finished : Int) : Result → Int
  | Result.Working => 0
  | Result.Finished => finished
  | Result.Error => -1

/-- Modelled from the spec: a native library whose `ruckig_update` and
`ruckig_calculate` answer, on live handles, with a code of the closed
enumeration. -/
def answersWithResultCodes (finished : Int) (N : Native) : Prop :=
  ∀ (inst input output : Ptr), inst ≠ nilPtr → input ≠ nilPtr → output ≠ nilPtr →
    (∃ ρ : Result, N.ruckig_update inst input output = ρ.code finished) ∧
    (∃ ρ : Result, N.ruckig_calculate inst input output = ρ.code finished)

/-! ## Calculate and Update -/

/-- C1: `Update` and `Calculate` return `-1` without any native call exactly
when one of the three handles is nil; with three non-nil handles each makes the
one native call `ruckig_update` / `ruckig_calculate` on those handles and
returns the integer that call returned, unchanged. -/
theorem Update_Calculate_nil_guard (N : Native) (r : Ruckig) (input : InputParameter)
    (output : OutputParameter) :
    (r.Update N input output = (-1, []) ↔
        (r.instance_ = nilPtr ∨ input.ptr = nilPtr ∨ output.ptr = nilPtr)) ∧
    (r.Calculate N input output = (-1, []) ↔
        (r.instance_ = nilPtr ∨ input.ptr = nilPtr ∨ output.ptr = nilPtr)) ∧
    (r.instance_ ≠ nilPtr → input.ptr ≠ nilPtr → output.ptr ≠ nilPtr →
      r.Update N input output =
          (N.ruckig_update r.instance_ input.ptr output.ptr,
           [NativeCall.ruckig_update r.instance_ input.ptr output.ptr]) ∧
      r.Calculate N input output =
          (N.ruckig_calculate r.instance_ input.ptr output.ptr,
           [NativeCall.ruckig_calculate r.instance_ input.ptr output.ptr])) := by
  refine ⟨?_, ?_, ?_⟩
  · unfold Ruckig.Update
    by_cases h : r.instance_ = nilPtr ∨ input.ptr = nilPtr ∨ output.ptr = nilPtr
    · simp [h]
    · simp [h]
  · unfold Ruckig.Calculate
    by_cases h : r.instance_ = nilPtr ∨ input.ptr = nilPtr ∨ output.ptr = nilPtr
    · simp [h]
    · simp [h]
  · intro h1 h2 h3
    simp [Ruckig.Update, Ruckig.Calculate, h1, h2, h3]

/-- C1 at a concrete engine with live handles 7, 8, 9 and a library that
answers `0`. -/
theorem Update_Calculate_nil_guard_witness :
    (Ruckig.mk 7 3).Update demoNative ⟨8⟩ ⟨9⟩ = (0, [NativeCall.ruckig_update 7 8 9]) ∧
    (Ruckig.mk 7 3).Calculate demoNative ⟨8⟩ ⟨9⟩ = (0, [NativeCall.ruckig_calculate 7 8 9]) :=
  (Update_Calculate_nil_guard demoNative (Ruckig.mk 7 3) ⟨8⟩ ⟨9⟩).2.2
    (by decide) (by decide) (by decide)

/-! ## Destroy and Reset -/

/-- A second `Destroy` of an engine finds the handle nil and does nothing. -/
theorem Ruckig_Destroy_twice (r : Ruckig) : r.Destroy.1.Destroy = (r.Destroy.1, []) := by
  unfold Ruckig.Destroy
  by_cases h : r.instance_ = nilPtr <;> simp [h]

/-- A second `Destroy` of an input object does nothing. -/
theorem InputParameter_Destroy_twice (inp : InputParameter) :
    inp.Destroy.1.Destroy = (inp.Destroy.1, []) := by
  unfold InputParameter.Destroy
  by_cases h : inp.ptr = nilPtr <;> simp [h]

/-- A second `Destroy` of an output object does nothing. -/
theorem OutputParameter_Destroy_twice (out : OutputParameter) :
    out.Destroy.1.Destroy = (out.Destroy.1, []) := by
  unfold OutputParameter.Destroy
  by_cases h : out.ptr = nilPtr <;> simp [h]

/-- C8: for each of the three object kinds, `Destroy` on a live handle makes
exactly one call, the matching native destroy function on that handle, and
leaves the handle field nil; `Destroy` on a nil handle makes no call and
changes nothing; a second `Destroy` therefore adds nothing to the first, and
over the two calls no handle is released more than once. -/
theorem Destroy_idempotent (N : List NativeCall → Native) (r : Ruckig)
    (inp : InputParameter) (out : OutputParameter) (w : World) :
    (r.instance_ ≠ nilPtr → r.Destroy =
        ({ instance_ := nilPtr, dof := r.dof },
         [NativeCall.destroy_ruckig_instance r.instance_])) ∧
    (inp.ptr ≠ nilPtr → inp.Destroy =
        ({ ptr := nilPtr }, [NativeCall.destroy_input_parameter inp.ptr])) ∧
    (out.ptr ≠ nilPtr → out.Destroy =
        ({ ptr := nilPtr }, [NativeCall.destroy_output_parameter out.ptr])) ∧
    (r.instance_ = nilPtr → r.Destroy = (r, [])) ∧
    (inp.ptr = nilPtr → inp.Destroy = (inp, [])) ∧
    (out.ptr = nilPtr → out.Destroy = (out, [])) ∧
    r.Destroy.1.Destroy = (r.Destroy.1, []) ∧
    inp.Destroy.1.Destroy = (inp.Destroy.1, []) ∧
    out.Destroy.1.Destroy = (out.Destroy.1, []) ∧
    run N w [Op.RuckigDestroy, Op.RuckigDestroy] = run N w [Op.RuckigDestroy] ∧
    run N w [Op.InputDestroy, Op.InputDestroy] = run N w [Op.InputDestroy] ∧
    run N w [Op.OutputDestroy, Op.OutputDestroy] = run N w [Op.OutputDestroy] ∧
    (∀ h, (r.Destroy.2 ++ r.Destroy.1.Destroy.2).count
        (NativeCall.destroy_ruckig_instance h) ≤ 1) ∧
    (∀ h, (inp.Destroy.2 ++ inp.Destroy.1.Destroy.2).count
        (NativeCall.destroy_input_parameter h) ≤ 1) ∧
    (∀ h, (out.Destroy.2 ++ out.Destroy.1.Destroy.2).count
        (NativeCall.destroy_output_parameter h) ≤ 1) := by
  refine ⟨?_, ?_, ?_, ?_, ?_, ?_, Ruckig_Destroy_twice r, InputParameter_Destroy_twice inp,
    OutputParameter_Destroy_twice out, ?_, ?_, ?_, ?_, ?_, ?_⟩
  · intro h; simp [Ruckig.Destroy, h]
  · intro h; simp [InputParameter.Destroy, h]
  · intro h; simp [OutputParameter.Destroy, h]
  · intro h; simp [Ruckig.Destroy, h]
  · intro h; simp [InputParameter.Destroy, h]
  · intro h; simp [OutputParameter.Destroy, h]
  · simp only [run, step]
    simp [Ruckig_Destroy_twice]
  · simp only [run, step]
    simp [InputParameter_Destroy_twice]
  · simp only [run, step]
    simp [OutputParameter_Destroy_twice]
  · intro h
    rw [Ruckig_Destroy_twice]
    unfold Ruckig.Destroy
    by_cases h0 : r.instance_ = nilPtr
    · simp [h0]
    · by_cases h1 : r.instance_ = h
      · subst h1; simp [h0]
      · simp [h0, h1, List.count_cons]
  · intro h
    rw [InputParameter_Destroy_twice]
    unfold InputParameter.Destroy
    by_cases h0 : inp.ptr = nilPtr
    · simp [h0]
    · by_cases h1 : inp.ptr = h
      · subst h1; simp [h0]
      · simp [h0, h1, List.count_cons]
  · intro h
    rw [OutputParameter_Destroy_twice]
    unfold OutputParameter.Destroy
    by_cases h0 : out.ptr = nilPtr
    · simp [h0]
    · by_cases h1 : out.ptr = h
      · subst h1; simp [h0]
      · simp [h0, h1, List.count_cons]

/-- C8 at live handles 7, 8, 9: each first `Destroy` releases its handle once
and clears the field. -/
theorem Destroy_idempotent_witness :
    (Ruckig.mk 7 3).Destroy = (Ruckig.mk 0 3, [NativeCall.destroy_ruckig_instance 7]) ∧
    (InputParameter.mk 8).Destroy =
        (InputParameter.mk 0, [NativeCall.destroy_input_parameter 8]) ∧
    (OutputParameter.mk 9).Destroy =
        (OutputParameter.mk 0, [NativeCall.destroy_output_parameter 9]) :=
  have h := Destroy_idempotent (fun _ => demoNative) (Ruckig.mk 7 3) ⟨8⟩ ⟨9⟩ ⟨⟨7, 3⟩, ⟨8⟩, ⟨9⟩, []⟩
  ⟨h.1 (by decide), h.2.1 (by decide), h.2.2.1 (by decide)⟩

/-- C10: `Reset` makes exactly one call, `ruckig_reset` on the engine handle,
when that handle is non-nil and no call when it is nil; in both cases the
engine object (handle and `dof`) is unchanged, and within a program the input
and output objects are unchanged as well. -/
theorem Reset_frame (N : List NativeCall → Native) (r : Ruckig) (w : World) :
    (r.instance_ ≠ nilPtr → r.Reset.2 = [NativeCall.ruckig_reset r.instance_]) ∧
    (r.instance_ = nilPtr → r.Reset.2 = []) ∧
    r.Reset.1 = r ∧
    r.Reset.1.instance_ = r.instance_ ∧ r.Reset.1.dof = r.dof ∧
    (∃ w1, step N w Op.RuckigReset = some (w1, Ret.unit) ∧
        w1.r = w.r ∧ w1.input = w.input ∧ w1.output = w.output ∧
        w1.trace = w.trace ++ w.r.Reset.2) := by
  have h1 : r.Reset.1 = r := by
    unfold Ruckig.Reset
    by_cases h : r.instance_ = nilPtr <;> simp [h]
  have h2 : w.r.Reset.1 = w.r := by
    unfold Ruckig.Reset
    by_cases h : w.r.instance_ = nilPtr <;> simp [h]
  refine ⟨?_, ?_, h1, by rw [h1], by rw [h1], ?_⟩
  · intro h; simp [Ruckig.Reset, h]
  · intro h; simp [Ruckig.Reset, h]
  · exact ⟨_, rfl, h2, rfl, rfl, rfl⟩

/-- C10 at a live engine (handle 7) and at a destroyed one (handle nil). -/
theorem Reset_frame_witness :
    (Ruckig.mk 7 3).Reset.2 = [NativeCall.ruckig_reset 7] ∧ (Ruckig.mk 0 3).Reset.2 = [] :=
  ⟨(Reset_frame (fun _ => demoNative) (Ruckig.mk 7 3) ⟨⟨7, 3⟩, ⟨8⟩, ⟨9⟩, []⟩).1 (by decide),
   (Reset_frame (fun _ => demoNative) (Ruckig.mk 0 3) ⟨⟨7, 3⟩, ⟨8⟩, ⟨9⟩, []⟩).2.1 (by decide)⟩

/-! ## Use after Destroy -/

/-- After `Destroy` the engine handle is nil, whatever it was before. -/
theorem Ruckig_Destroy_handle (r : Ruckig) : r.Destroy.1.instance_ = nilPtr := by
  unfold Ruckig.Destroy
  by_cases h : r.instance_ = nilPtr <;> simp [h]

/-- After `Destroy` the input handle is nil. -/
theorem InputParameter_Destroy_handle (inp : InputParameter) : inp.Destroy.1.ptr = nilPtr := by
  unfold InputParameter.Destroy
  by_cases h : inp.ptr = nilPtr <;> simp [h]

/-- After `Destroy` the output handle is nil. -/
theorem OutputParameter_Destroy_handle (out : OutputParameter) : out.Destroy.1.ptr = nilPtr := by
  unfold OutputParameter.Destroy
  by_cases h : out.ptr = nilPtr <;> simp [h]

/-- No method call turns a nil handle into a live one. -/
theorem step_keeps_nil (N : List NativeCall → Native) (w w1 : World) (op : Op) (ρ : Ret)
    (h : step N w op = some (w1, ρ)) :
    (w.r.instance_ = nilPtr → w1.r.instance_ = nilPtr) ∧
    (w.input.ptr = nilPtr → w1.input.ptr = nilPtr) ∧
    (w.output.ptr = nilPtr → w1.output.ptr = nilPtr) := by
  cases op <;>
    simp only [step, Option.map_eq_some', Option.some.injEq, Prod.mk.injEq] at h
  all_goals first
    | (obtain ⟨rfl, -⟩ := h
       refine ⟨?_, ?_, ?_⟩ <;> intro h0 <;>
         first
           | exact h0
           | exact Ruckig_Destroy_handle _
           | exact InputParameter_Destroy_handle _
           | exact OutputParameter_Destroy_handle _
           | (simp only [Ruckig.Reset]; split <;> exact h0))
    | (obtain ⟨_, _, rfl, -⟩ := h
       exact ⟨fun h0 => h0, fun h0 => h0, fun h0 => h0⟩)

/-- Nil handles stay nil over a whole program. -/
theorem run_keeps_nil (N : List NativeCall → Native) (ops : List Op) :
    ∀ (w w2 : World), run N w ops = some w2 →
      (w.r.instance_ = nilPtr → w2.r.instance_ = nilPtr) ∧
      (w.input.ptr = nilPtr → w2.input.ptr = nilPtr) ∧
      (w.output.ptr = nilPtr → w2.output.ptr = nilPtr) := by
  induction ops with
  | nil =>
      intro w w2 h
      simp only [run, Option.some.injEq] at h
      subst h
      exact ⟨fun h0 => h0, fun h0 => h0, fun h0 => h0⟩
  | cons op ops ih =>
      intro w w2 h
      simp only [run] at h
      cases hs : step N w op with
      | none => simp [hs] at h
      | some p =>
          obtain ⟨w1, ρ⟩ := p
          simp only [hs] at h
          have h1 := step_keeps_nil N w w1 op ρ hs
          have h2 := ih w1 w2 h
          exact ⟨fun h0 => h2.1 (h1.1 h0), fun h0 => h2.2.1 (h1.2.1 h0),
            fun h0 => h2.2.2 (h1.2.2 h0)⟩

/-- C7: once `Destroy` has been called on the engine, the input or the output
object, then after any further method calls on the three objects `Update` and
`Calculate` return `-1` and make no native call (the world, trace included, is
unchanged); and once the engine was destroyed, `Reset` makes no native call
either. -/
theorem use_after_Destroy (N : List NativeCall → Native) (w w1 w2 : World) (d : Op)
    (ρ : Ret) (ops : List Op)
    (hd : d = Op.RuckigDestroy ∨ d = Op.InputDestroy ∨ d = Op.OutputDestroy)
    (h1 : step N w d = some (w1, ρ)) (h2 : run N w1 ops = some w2) :
    step N w2 Op.Update = some (w2, Ret.int (-1)) ∧
    step N w2 Op.Calculate = some (w2, Ret.int (-1)) ∧
    (d = Op.RuckigDestroy → step N w2 Op.RuckigReset = some (w2, Ret.unit)) := by
  have hk := run_keeps_nil N ops w1 w2 h2
  have hnil : w1.r.instance_ = nilPtr ∨ w1.input.ptr = nilPtr ∨ w1.output.ptr = nilPtr := by
    rcases hd with rfl | rfl | rfl <;>
      simp only [step, Option.some.injEq, Prod.mk.injEq] at h1 <;>
      obtain ⟨rfl, -⟩ := h1
    · exact Or.inl (Ruckig_Destroy_handle _)
    · exact Or.inr (Or.inl (InputParameter_Destroy_handle _))
    · exact Or.inr (Or.inr (OutputParameter_Destroy_handle _))
  have hnil2 : w2.r.instance_ = nilPtr ∨ w2.input.ptr = nilPtr ∨ w2.output.ptr = nilPtr := by
    rcases hnil with h | h | h
    · exact Or.inl (hk.1 h)
    · exact Or.inr (Or.inl (hk.2.1 h))
    · exact Or.inr (Or.inr (hk.2.2 h))
  refine ⟨?_, ?_, ?_⟩
  · simp [step, Ruckig.Update, hnil2]
  · simp [step, Ruckig.Calculate, hnil2]
  · intro hd1
    subst hd1
    simp only [step, Option.some.injEq, Prod.mk.injEq] at h1
    obtain ⟨rfl, -⟩ := h1
    have h3 : w2.r.instance_ = nilPtr := hk.1 (Ruckig_Destroy_handle _)
    simp [step, Ruckig.Reset, h3]

/-- C7 on a live loop (handles 7, 8, 9): the input object is destroyed, the
program goes on with `Reset` and `Time`, and `Update` then returns `-1` leaving
the trace as it was. -/
theorem use_after_Destroy_witness :
    step (fun _ => demoNative)
        ⟨⟨7, 3⟩, ⟨0⟩, ⟨9⟩,
          [NativeCall.destroy_input_parameter 8, NativeCall.ruckig_reset 7,
           NativeCall.get_output_time 9]⟩
        Op.Update =
      some (⟨⟨7, 3⟩, ⟨0⟩, ⟨9⟩,
          [NativeCall.destroy_input_parameter 8, NativeCall.ruckig_reset 7,
           NativeCall.get_output_time 9]⟩, Ret.int (-1)) :=
  (use_after_Destroy (fun _ => demoNative) ⟨⟨7, 3⟩, ⟨8⟩, ⟨9⟩, []⟩
    ⟨⟨7, 3⟩, ⟨0⟩, ⟨9⟩, [NativeCall.destroy_input_parameter 8]⟩
    ⟨⟨7, 3⟩, ⟨0⟩, ⟨9⟩,
      [NativeCall.destroy_input_parameter 8, NativeCall.ruckig_reset 7,
       NativeCall.get_output_time 9]⟩
    Op.InputDestroy Ret.unit [Op.RuckigReset, Op.Time]
    (Or.inr (Or.inl rfl)) (by decide) (by decide)).1

/-! ## Result codes -/

/-- C6: with a native library whose `ruckig_update` and `ruckig_calculate`
answer with codes of the closed enumeration, `Update` and `Calculate` return
one of the three codes Working (`0`), Finished, Error (`-1`) for every engine,
input and output object: the nil-handle path returns the Error code and the
other path returns the library's code. -/
theorem result_codes_closed (finished : Int) (N : Native)
    (hN : answersWithResultCodes finished N) (r : Ruckig) (input : InputParameter)
    (output : OutputParameter) :
    (∃ ρ : Result, (r.Update N input output).1 = ρ.code finished) ∧
    (∃ ρ : Result, (r.Calculate N input output).1 = ρ.code finished) := by
  by_cases h : r.instance_ = nilPtr ∨ input.ptr = nilPtr ∨ output.ptr = nilPtr
  · exact ⟨⟨Result.Error, by simp [Ruckig.Update, h, Result.code]⟩,
      ⟨Result.Error, by simp [Ruckig.Calculate, h, Result.code]⟩⟩
  · have h' := h
    simp only [not_or] at h'
    obtain ⟨⟨ρ1, e1⟩, ⟨ρ2, e2⟩⟩ := hN r.instance_ input.ptr output.ptr h'.1 h'.2.1 h'.2.2
    exact ⟨⟨ρ1, by simp [Ruckig.Update, h, e1]⟩, ⟨ρ2, by simp [Ruckig.Calculate, h, e2]⟩⟩

/-- C6 at a library that always answers Working, on live handles 7, 8, 9. -/
theorem result_codes_closed_witness :
    (∃ ρ : Result, ((Ruckig.mk 7 3).Update demoNative ⟨8⟩ ⟨9⟩).1 = ρ.code 1) ∧
    (∃ ρ : Result, ((Ruckig.mk 7 3).Calculate demoNative ⟨8⟩ ⟨9⟩).1 = ρ.code 1) :=
  result_codes_closed 1 demoNative
    (fun _ _ _ _ _ _ => ⟨⟨Result.Working, rfl⟩, ⟨Result.Working, rfl⟩⟩)
    (Ruckig.mk 7 3) ⟨8⟩ ⟨9⟩

/-! ## NewRuckig -/

/-- `C.int` is the identity on the 32-bit range. -/
theorem cInt_of_range (x : Int) (h1 : -2147483648 ≤ x) (h2 : x < 2147483648) : cInt x = x := by
  unfold cInt
  omega

/-- `C.int` of a non-negative number is never larger than the number. -/
theorem cInt_le (x : Int) (h : 0 ≤ x) : cInt x ≤ x := by
  unfold cInt
  omega

/-- C5, as the code has it: `NewRuckig` fails whenever the period is `≤ 0` or
the DOF count narrowed to a C `int` is `< 1`, in particular for every DOF count
`< 1` of the 32-bit range; and when it does not fail, the engine it returns has
a non-nil handle and the `dof` argument in its `dof` field. -/
theorem NewRuckig_contract (N : Native) (hN : createFailsAsSpecified N)
    (deltaTime : float64) (dof : Int) :
    ((deltaTime ≤ 0 ∨ cInt dof < 1) → (NewRuckig N deltaTime dof).1 = none) ∧
    ((deltaTime ≤ 0 ∨ (-2147483648 ≤ dof ∧ dof < 1)) → (NewRuckig N deltaTime dof).1 = none) ∧
    (∀ r : Ruckig, (NewRuckig N deltaTime dof).1 = some r →
        r.instance_ ≠ nilPtr ∧ r.dof = dof) := by
  have key : (deltaTime ≤ 0 ∨ cInt dof < 1) → (NewRuckig N deltaTime dof).1 = none := by
    intro h
    simp [NewRuckig, hN deltaTime (cInt dof) h]
  refine ⟨key, ?_, ?_⟩
  · rintro (h | ⟨h1, h2⟩)
    · exact key (Or.inl h)
    · refine key (Or.inr ?_)
      rw [cInt_of_range dof h1 (by omega)]
      exact h2
  · intro r hr
    unfold NewRuckig at hr
    by_cases h0 : N.create_ruckig_instance deltaTime (cInt dof) = nilPtr
    · simp [h0] at hr
    · simp only [h0, if_false, Option.some.injEq] at hr
      subst hr
      exact ⟨h0, rfl⟩

/-- C5 at the specified library: period `-1` and DOF count `0` are both
refused, and period `1/100` with three DOFs gives an engine with a live handle
and `dof = 3`. -/
theorem NewRuckig_contract_witness :
    (NewRuckig specNative (-1) 3).1 = none ∧ (NewRuckig specNative (1 / 100) 0).1 = none ∧
    (Ruckig.mk 4096 3).instance_ ≠ nilPtr ∧ (Ruckig.mk 4096 3).dof = 3 :=
  have hs : createFailsAsSpecified specNative := by
    intro delta_time dof h
    simp [specNative, h]
  ⟨(NewRuckig_contract specNative hs (-1) 3).1 (Or.inl (by norm_num)),
   (NewRuckig_contract specNative hs (1 / 100) 0).2.1 (Or.inr (by decide)),
   (NewRuckig_contract specNative hs (1 / 100) 3).2.2 (Ruckig.mk 4096 3)
     (by simp [NewRuckig, specNative, demoNative, cInt, nilPtr])⟩

/-- C5 fails as stated: the DOF count `3 - 2^32` is `< 1`, yet `C.int` narrows
it to `3`, the specified library creates a 3-DOF engine, and `NewRuckig` returns
an object. -/
theorem NewRuckig_negative_dof_accepted :
    createFailsAsSpecified specNative ∧ (3 - 4294967296 : Int) < 1 ∧
    (NewRuckig specNative (1 / 100) (3 - 4294967296)).1 =
      some (Ruckig.mk 4096 (3 - 4294967296)) := by
  refine ⟨?_, by decide, ?_⟩
  · intro delta_time dof h
    simp [specNative, h]
  · simp [NewRuckig, specNative, demoNative, cInt, nilPtr]

/-! ## Setters and NewPosition -/

/-- Storing through the pointer does not change the length of the Go slice. -/
theorem storeThrough_length (buf vals : List float64) :
    (storeThrough buf vals).length = buf.length := by
  simp only [storeThrough, List.length_append, List.length_take, List.length_drop]
  omega

/-- What `NewPosition` does for every output object and every library: it
allocates three zeros, asks for three values and returns a slice of length three. -/
theorem NewPosition_eq (N : Native) (out : OutputParameter) :
    out.NewPosition N =
      some (storeThrough [0, 0, 0] (N.get_new_position out.ptr 3),
            [NativeCall.get_new_position out.ptr [0, 0, 0] 3]) := by
  simp [OutputParameter.NewPosition, addrOfFirst, cInt, List.replicate]

/-- C9, as the code has it: for a non-empty slice `s` each of the nine setters
makes exactly one call, to its own native setter, with the input handle, the
slice `s` and the count `C.int(len(s))`; that count is `len(s)` whenever
`len(s) < 2^31` and is never larger than `len(s)`; and `NewPosition` passes a
count equal to the length of the slice it allocated, which is also the length
of the slice it returns. -/
theorem setters_pass_length (N : Native) (inp : InputParameter) (out : OutputParameter)
    (s : List float64) (hs : s ≠ []) :
    (s.length < 2147483648 →
      inp.SetCurrentPosition s = some [NativeCall.set_current_position inp.ptr s s.length] ∧
      inp.SetTargetPosition s = some [NativeCall.set_target_position inp.ptr s s.length] ∧
      inp.SetCurrentVelocity s = some [NativeCall.set_current_velocity inp.ptr s s.length] ∧
      inp.SetCurrentAcceleration s = some [NativeCall.set_current_acceleration inp.ptr s s.length] ∧
      inp.SetTargetVelocity s = some [NativeCall.set_target_velocity inp.ptr s s.length] ∧
      inp.SetTargetAcceleration s = some [NativeCall.set_target_acceleration inp.ptr s s.length] ∧
      inp.SetMaxVelocity s = some [NativeCall.set_max_velocity inp.ptr s s.length] ∧
      inp.SetMaxAcceleration s = some [NativeCall.set_max_acceleration inp.ptr s s.length] ∧
      inp.SetMaxJerk s = some [NativeCall.set_max_jerk inp.ptr s s.length]) ∧
    (     inp.SetCurrentPosition s = some [NativeCall.set_current_position inp.ptr s (cInt s.length)] ∧
     inp.SetTargetPosition s = some [NativeCall.set_target_position inp.ptr s (cInt s.length)] ∧
     inp.SetCurrentVelocity s = some [NativeCall.set_current_velocity inp.ptr s (cInt s.length)] ∧
     inp.SetCurrentAcceleration s = some [NativeCall.set_current_acceleration inp.ptr s (cInt s.length)] ∧
     inp.SetTargetVelocity s = some [NativeCall.set_target_velocity inp.ptr s (cInt s.length)] ∧
     inp.SetTargetAcceleration s = some [NativeCall.set_target_acceleration inp.ptr s (cInt s.length)] ∧
     inp.SetMaxVelocity s = some [NativeCall.set_max_velocity inp.ptr s (cInt s.length)] ∧
     inp.SetMaxAcceleration s = some [NativeCall.set_max_acceleration inp.ptr s (cInt s.length)] ∧
     inp.SetMaxJerk s = some [NativeCall.set_max_jerk inp.ptr s (cInt s.length)]) ∧
    cInt s.length ≤ s.length ∧
    (∃ buf xs : List float64,
      out.NewPosition N = some (xs, [NativeCall.get_new_position out.ptr buf buf.length]) ∧
      xs.length = buf.length) := by
  have hpos : 0 < s.length := List.length_pos.mpr hs
  have hall :
    (     inp.SetCurrentPosition s = some [NativeCall.set_current_position inp.ptr s (cInt s.length)] ∧
     inp.SetTargetPosition s = some [NativeCall.set_target_position inp.ptr s (cInt s.length)] ∧
     inp.SetCurrentVelocity s = some [NativeCall.set_current_velocity inp.ptr s (cInt s.length)] ∧
     inp.SetCurrentAcceleration s = some [NativeCall.set_current_acceleration inp.ptr s (cInt s.length)] ∧
     inp.SetTargetVelocity s = some [NativeCall.set_target_velocity inp.ptr s (cInt s.length)] ∧
     inp.SetTargetAcceleration s = some [NativeCall.set_target_acceleration inp.ptr s (cInt s.length)] ∧
     inp.SetMaxVelocity s = some [NativeCall.set_max_velocity inp.ptr s (cInt s.length)] ∧
     inp.SetMaxAcceleration s = some [NativeCall.set_max_acceleration inp.ptr s (cInt s.length)] ∧
     inp.SetMaxJerk s = some [NativeCall.set_max_jerk inp.ptr s (cInt s.length)]) := by
    simp [InputParameter.SetCurrentPosition, InputParameter.SetTargetPosition, InputParameter.SetCurrentVelocity, InputParameter.SetCurrentAcceleration, InputParameter.SetTargetVelocity, InputParameter.SetTargetAcceleration, InputParameter.SetMaxVelocity, InputParameter.SetMaxAcceleration, InputParameter.SetMaxJerk, addrOfFirst, hpos]
  refine ⟨?_, hall, cInt_le _ (by omega), ?_⟩
  · intro hlt
    have hc : cInt s.length = s.length := cInt_of_range _ (by omega) (by omega)
    rw [hc] at hall
    exact hall
  · exact ⟨[0, 0, 0], storeThrough [0, 0, 0] (N.get_new_position out.ptr 3),
      by rw [NewPosition_eq]; rfl, storeThrough_length _ _⟩

/-- C9 on the position slice `[5, -2, -7/2]` of the trajectory test. -/
theorem setters_pass_length_witness :
    (InputParameter.mk 8).SetTargetPosition [5, -2, -7 / 2] =
      some [NativeCall.set_target_position 8 [5, -2, -7 / 2] 3] :=
  ((setters_pass_length demoNative ⟨8⟩ ⟨9⟩ [5, -2, -7 / 2] (by simp)).1 (by decide)).2.1

/-- C9 fails as stated on a slice of `2^31` elements: the count handed to the
native setter is `-2^31`, not the length of the slice. -/
theorem SetCurrentPosition_count_wraps :
    (InputParameter.mk 8).SetCurrentPosition (List.replicate 2147483648 0) =
      some [NativeCall.set_current_position 8 (List.replicate 2147483648 0) (-2147483648)] ∧
    ((List.replicate 2147483648 (0 : float64)).length : Int) ≠ -2147483648 := by
  constructor
  · simp only [InputParameter.SetCurrentPosition, addrOfFirst, List.length_replicate]
    have h : cInt ((2147483648 : Nat) : Int) = -2147483648 := by decide
    rw [h]
    rfl
  · simp only [List.length_replicate]
    decide

/-- C4 at the failing input: on the empty slice every one of the nine setters
ends in a run-time panic (index out of range), for every input object. -/
theorem setters_panic_on_empty_slice (inp : InputParameter) :
    inp.SetCurrentPosition [] = none ∧
    inp.SetTargetPosition [] = none ∧
    inp.SetCurrentVelocity [] = none ∧
    inp.SetCurrentAcceleration [] = none ∧
    inp.SetTargetVelocity [] = none ∧
    inp.SetTargetAcceleration [] = none ∧
    inp.SetMaxVelocity [] = none ∧
    inp.SetMaxAcceleration [] = none ∧
    inp.SetMaxJerk [] = none := by
  simp [InputParameter.SetCurrentPosition, InputParameter.SetTargetPosition, InputParameter.SetCurrentVelocity, InputParameter.SetCurrentAcceleration, InputParameter.SetTargetVelocity, InputParameter.SetTargetAcceleration, InputParameter.SetMaxVelocity, InputParameter.SetMaxAcceleration, InputParameter.SetMaxJerk, addrOfFirst]

/-- C3 at the failing input: an output object created for `n` degrees of
freedom asks the library for three values and returns three positions,
whatever `n` was. -/
theorem NewPosition_always_three (N : Native) (n : Int) (out : OutputParameter)
    (_hcreated : (NewOutputParameter N n).1 = some out) :
    ∃ xs : List float64,
      out.NewPosition N = some (xs, [NativeCall.get_new_position out.ptr [0, 0, 0] 3]) ∧
      xs.length = 3 := by
  exact ⟨_, NewPosition_eq N out, storeThrough_length _ _⟩

/-- C3 for an output object created with two degrees of freedom. -/
theorem NewPosition_always_three_witness :
    (NewOutputParameter demoNative 2).1 = some (OutputParameter.mk 12288) ∧
    ∃ xs : List float64,
      (OutputParameter.mk 12288).NewPosition demoNative =
        some (xs, [NativeCall.get_new_position 12288 [0, 0, 0] 3]) ∧
      xs.length = 3 :=
  ⟨by decide, NewPosition_always_three demoNative 2 ⟨12288⟩ (by decide)⟩

end goRuckig
